import Mathlib

/-!
# A shallow embedding of the `dicrs` Leitner scheduling engine

This file embeds `src/leitner.rs` of the `dicrs` repository: the
spaced-repetition ("Leitner box") scheduler that owns a card collection,
mirrors a SQLite table in three parallel in-memory vectors, and applies the
promotion/demotion/removal state machine on review outcomes.

Modelling conventions:

* `chrono::NaiveDate` is modelled as an `Int` day number; `date + Duration::days n`
  becomes `Int` addition. Comparisons are the usual `Int` order.
* The SQLite `cards` table is an association list `List (Nat × Card)` from
  ROWID to row; `INSERT` assigns ROWID `max + 1` (SQLite's behaviour for an
  `INTEGER PRIMARY KEY` table without `AUTOINCREMENT`), `DELETE`/`UPDATE`
  filter/map by ROWID. Dates held in the table are stored parsed (every row
  that survives a load has well-formed `%Y-%m-%d` text, and every write
  formats a valid date, so the text round-trips).
* Fallible `rusqlite` calls are modelled with injected fault flags
  (`Faults`): a flag set means that call returns `Err`.  `?` propagation is
  modelled by threading the state in source-statement order and returning
  the current state together with the error, so "memory mutated before a
  failed write" would be visible in the returned state.
* Rust panics (`unwrap` on a bad date, slice/`Vec` index out of bounds,
  `clamp` with `min > max`) are modelled as the distinguished outcome
  `Outcome.panicked` (or `none` for `update_index_by`).
* `usize` subtraction `len - 1` is modelled with release-profile wrapping
  semantics: `(len + 2^64 - 1) % 2^64` (debug builds panic at that point
  instead; the relevant theorems note this). Likewise the `u8` additions in
  the review transition (`attempts + 1`, `current_box + 1`) wrap `% 256` as
  in a release build (debug builds panic on the overflow).
* Functions that read the current date (`chrono::Local::now().date_naive()`)
  take `today : Int` as an explicit argument.
-/

/-- One persisted row of the `cards` table (with the date already parsed). -/
structure Card where
  word : String
  definition : String
  box : Nat
  next_review : Int
  attempts : Nat
deriving DecidableEq, Repr

/-- The `Leitner` struct: the backing table plus the cursor and the three
parallel in-memory vectors `word_index`, `review_due`, `box_level`. -/
structure Leitner where
  store : List (Nat × Card)
  selected_index : Nat
  word_index : List String
  review_due : List Int
  box_level : List Nat
deriving DecidableEq, Repr

/-- `static INTERVALS: [u8; 5] = [1, 2, 4, 6, 10];` -/
def INTERVALS : List Nat := [1, 2, 4, 6, 10]

/-- Errors returned by the modelled `rusqlite` calls. -/
inductive DbErr where
  | openFail
  | execFail
  | queryFail
  | queryReturnedNoRows
  | invalidQuery
deriving DecidableEq, Repr

/-- Result of one mutating operation: `Ok(())`, `Err(e)`, or a Rust panic. -/
inductive Outcome where
  | ok
  | err (e : DbErr)
  | panicked
deriving DecidableEq, Repr

/-- Fault injection for the store: `read` makes the next `query_row` fail,
`write` makes the next `execute` (INSERT/UPDATE/DELETE) fail. -/
structure Faults where
  read : Bool
  write : Bool
deriving DecidableEq, Repr

/-- No injected persistence failures. -/
def noFault : Faults := ⟨false, false⟩

/-- `SELECT ... WHERE ROWID = rid` (first matching row, as `query_row`). -/
def storeLookup (store : List (Nat × Card)) (rid : Nat) : Option Card :=
  (store.find? (fun p => p.1 = rid)).map Prod.snd

/-- `DELETE FROM cards WHERE ROWID = rid`. -/
def storeDelete (store : List (Nat × Card)) (rid : Nat) : List (Nat × Card) :=
  store.filter (fun p => p.1 ≠ rid)

/-- `UPDATE cards SET ... WHERE ROWID = rid`, replacing the matching row. -/
def storeSet (store : List (Nat × Card)) (rid : Nat) (c : Card) : List (Nat × Card) :=
  store.map (fun p => if p.1 = rid then (rid, c) else p)

/-- The ROWID SQLite assigns to the next `INSERT`: one more than the largest
ROWID currently in the table (1 for an empty table). -/
def nextRowid (store : List (Nat × Card)) : Nat :=
  (store.map Prod.fst).foldr max 0 + 1

/-- Release-profile `usize` wrapping of `n - 1` (used for
`self.word_index.len() - 1` when the length may be 0). -/
def usizeSub1 (n : Nat) : Nat := (n + (2 ^ 64 - 1)) % 2 ^ 64

/-- The transition table of `Leitner::review` (lines 118-124): promotion on
success; demotion on a second consecutive failure above box 1; otherwise the
box is kept and `attempts` is incremented. `current_box` and `attempts` are
`u8` in the source, so `current_box + 1` and `attempts + 1` wrap `% 256` in
a release build (a debug build panics on the overflow instead); the wrap of
`attempts + 1` is reachable, at `attempts = 255` after 255 consecutive
failures at box 1. `current_box - 1` is only computed under
`current_box > 1`, so it never underflows. -/
def reviewTransition (success : Bool) (current_box attempts : Nat) : Nat × Nat :=
  if success then ((current_box + 1) % 256, 0)
  else if (attempts + 1) % 256 ≥ 2 ∧ current_box > 1 then (current_box - 1, 0)
  else (current_box, (attempts + 1) % 256)

/-- `Leitner::update_index_by`: cursor shifted by `i` and clamped to
`[0, len-1]`. Rust's `Ord::clamp` asserts `min ≤ max` in every build
profile, so the call panics (`none`) when the collection is empty. -/
def update_index_by (L : Leitner) (i : Int) : Option Leitner :=
  let lo : Int := 0
  let hi : Int := (L.word_index.length : Int) - 1
  if lo ≤ hi then
    let x : Int := (L.selected_index : Int) + i
    let clamped : Int := if x < lo then lo else if x > hi then hi else x
    some { L with selected_index := clamped.toNat }
  else
    none

/-- The `while` loop of `Leitner::next`: starting at `i`, advance while
`i < lastIdx` and the due date at `i` is strictly after `today`. -/
def nextFrom (today : Int) (review_due : List Int) (lastIdx i : Nat) : Nat :=
  if i < lastIdx then
    if review_due.getD i 0 ≤ today then i
    else nextFrom today review_due lastIdx (i + 1)
  else i
termination_by lastIdx - i
decreasing_by omega

/-- `Leitner::next`: no-op on an empty collection, otherwise scan forward
from the cursor for a due card, stopping at the last position at the latest. -/
def next (today : Int) (L : Leitner) : Leitner :=
  if L.word_index.isEmpty then L
  else
    { L with selected_index := nextFrom today L.review_due (L.word_index.length - 1) L.selected_index }

/-- `Leitner::add`: INSERT a row `(word, definition, box 1, today + 1)` (the
`attempts` column takes its DEFAULT 0), then push the mirroring entries onto
the three in-memory vectors. The INSERT happens before any push, so a failed
INSERT leaves memory untouched. -/
def add (f : Faults) (today : Int) (word definition : String) (L : Leitner) :
    Leitner × Outcome :=
  let review_date : Int := today + 1
  if f.write then (L, .err .execFail)
  else
    let L1 := { L with store := L.store ++ [(nextRowid L.store, (⟨word, definition, 1, review_date, 0⟩ : Card))] }
    let L2 := { L1 with word_index := L1.word_index ++ [word] }
    let L3 := { L2 with review_due := L2.review_due ++ [review_date] }
    ({ L3 with box_level := L3.box_level ++ [1] }, .ok)

/-- `Leitner::review`: guard on the cursor range, re-read the row at
ROWID `cursor + 1`, return `Ok` untouched when the card is not yet due,
otherwise apply `reviewTransition`; a transition to box 6 deletes the row and
erases the cursor position from the three vectors (then "clamps" the cursor
with the wrapping `len - 1`), any other transition writes the new box, date
`today + INTERVALS[new_box - 1]` and attempts back, then mirrors the date and
box into `review_due` and `box_level`. Store writes precede the
corresponding in-memory updates, as in the source. Out-of-bounds vector
accesses (possible only in misaligned states) are `Outcome.panicked`. -/
def review (f : Faults) (success : Bool) (today : Int) (L : Leitner) :
    Leitner × Outcome :=
  if L.selected_index < L.word_index.length then
    if f.read then (L, .err .queryFail)
    else
      match storeLookup L.store (L.selected_index + 1) with
      | none => (L, .err .queryReturnedNoRows)
      | some c =>
        if today < c.next_review then (L, .ok)
        else
          let new_box := (reviewTransition success c.box c.attempts).1
          let new_attempts := (reviewTransition success c.box c.attempts).2
          if new_box = 6 then
            if f.write then (L, .err .execFail)
            else
              let L1 := { L with store := storeDelete L.store (L.selected_index + 1) }
              let L2 := { L1 with word_index := L1.word_index.eraseIdx L1.selected_index }
              if L2.selected_index < L2.review_due.length then
                let L3 := { L2 with review_due := L2.review_due.eraseIdx L2.selected_index }
                if L3.selected_index < L3.box_level.length then
                  let L4 := { L3 with box_level := L3.box_level.eraseIdx L3.selected_index }
                  if L4.selected_index ≥ L4.word_index.length then
                    ({ L4 with selected_index := usizeSub1 L4.word_index.length }, .ok)
                  else (L4, .ok)
                else (L3, .panicked)
              else (L2, .panicked)
          else
            if new_box = 0 then (L, .panicked)
            else
              match INTERVALS.get? (new_box - 1) with
              | none => (L, .panicked)
              | some new_days =>
                let review_date : Int := today + (new_days : Int)
                if f.write then (L, .err .execFail)
                else
                  let c' : Card := { c with box := new_box, next_review := review_date, attempts := new_attempts }
                  let L1 := { L with store := storeSet L.store (L.selected_index + 1) c' }
                  if L1.selected_index < L1.review_due.length then
                    let L2 := { L1 with review_due := L1.review_due.set L1.selected_index review_date }
                    if L2.selected_index < L2.box_level.length then
                      ({ L2 with box_level := L2.box_level.set L2.selected_index new_box }, .ok)
                    else (L2, .panicked)
                  else (L1, .panicked)
  else (L, .err .invalidQuery)

/-- A persisted row as it sits in the database before loading: the
`next_review` column is raw `%Y-%m-%d` text. -/
structure RawCard where
  word : String
  definition : String
  box : Nat
  next_review : String
  attempts : Nat
deriving DecidableEq, Repr

/-- Result of `Leitner::new`: a loaded state, a propagated `rusqlite` error,
or a Rust panic. -/
inductive NewResult where
  | ok (L : Leitner)
  | err (e : DbErr)
  | panicked
deriving DecidableEq, Repr

/-- Split a character list on `-`, as `"%Y-%m-%d"` parsing does. -/
def splitDash : List Char → List (List Char)
  | [] => [[]]
  | c :: rest =>
    let r := splitDash rest
    if c = '-' then [] :: r
    else
      match r with
      | [] => [[c]]
      | g :: gs => (c :: g) :: gs

/-- Parse a non-empty run of decimal digits. -/
def parseDigits (cs : List Char) : Option Nat :=
  if cs.isEmpty then none
  else
    cs.foldl
      (fun acc c =>
        acc.bind (fun n => if c.isDigit then some (n * 10 + (c.toNat - 48)) else none))
      (some 0)

/-- `NaiveDate::parse_from_str(s, "%Y-%m-%d")`, modelled on the day-number
abstraction: succeeds exactly on `year-month-day` digit groups with the month
in `1..12` and the day in `1..31`, mapping the triple injectively to an `Int`
day index; fails (`none`) on anything else. -/
def parseDate (s : String) : Option Int :=
  match splitDash s.toList with
  | [y, m, d] =>
    match parseDigits y, parseDigits m, parseDigits d with
    | some yn, some mn, some dn =>
      if 1 ≤ mn ∧ mn ≤ 12 ∧ 1 ≤ dn ∧ dn ≤ 31 then
        some (((yn * 12 + (mn - 1)) * 31 + (dn - 1) : Nat) : Int)
      else none
    | _, _, _ => none
  | _ => none

/-- The row loop of `Leitner::new`: for each row append `word`, the parsed
date and `box` to the three vectors; the `.unwrap()` on the parse makes a
malformed date a panic, not an `Err`. -/
def loadRows : List (Nat × RawCard) → List (Nat × Card) → List String → List Int → List Nat → NewResult
  | [], storeAcc, ws, ds, bs => .ok ⟨storeAcc, 0, ws, ds, bs⟩
  | (rid, r) :: rest, storeAcc, ws, ds, bs =>
    match parseDate r.next_review with
    | none => .panicked
    | some d =>
      loadRows rest (storeAcc ++ [(rid, ⟨r.word, r.definition, r.box, d, r.attempts⟩)])
        (ws ++ [r.word]) (ds ++ [d]) (bs ++ [r.box])

/-- `Leitner::new`: open the connection and create the table (each `?`
propagates a failure), then load every persisted row in order with the
cursor initialised to 0. `openFail` models a failing `Connection::open`,
`initFail` a failing `CREATE TABLE`/`prepare`/`query`. -/
def new (openFail initFail : Bool) (table : List (Nat × RawCard)) : NewResult :=
  if openFail then .err .openFail
  else if initFail then .err .execFail
  else loadRows table [] [] [] []

/-- The empty collection (a `Leitner` freshly loaded from an empty store). -/
def L0 : Leitner := ⟨[], 0, [], [], []⟩

/-- A box-5 card due on day 0. -/
def cardA : Card := ⟨"alpha", "defA", 5, 0, 0⟩

/-- A box-3 card due on day 5. -/
def cardB : Card := ⟨"beta", "defB", 3, 5, 0⟩

/-- A loaded state with two aligned cards under ROWIDs 1 and 2. -/
def L2cards : Leitner := ⟨[(1, cardA), (2, cardB)], 0, ["alpha", "beta"], [0, 5], [5, 3]⟩

/-- A loaded state with a single box-5 card due on day 0. -/
def L1card : Leitner := ⟨[(1, cardA)], 0, ["alpha"], [0], [5]⟩

/-- A loaded state with a single box-2 card due on day 0. -/
def L1box2 : Leitner := ⟨[(1, (⟨"w", "d", 2, 0, 0⟩ : Card))], 0, ["w"], [0], [2]⟩

/-- A loaded state with a single box-1 card due on day 7. -/
def L1future : Leitner := ⟨[(1, (⟨"w", "d", 1, 7, 0⟩ : Card))], 0, ["w"], [7], [1]⟩

/-- A loaded state with a single box-1 card due on day 0 whose `attempts`
counter has reached the `u8` maximum 255 (255 consecutive failures at
box 1, where no demotion ever resets the counter). -/
def L1att255 : Leitner := ⟨[(1, (⟨"w", "d", 1, 0, 255⟩ : Card))], 0, ["w"], [0], [1]⟩

/-- Modelled from the spec: the box-interval table `{1:1, 2:2, 3:4, 4:6, 5:10}`
as written in §3 of the spec (0 elsewhere), to be compared with the source's
`INTERVALS[(new_box - 1) as usize]`. -/
def specInterval : Nat → Nat
  | 1 => 1
  | 2 => 2
  | 3 => 4
  | 4 => 6
  | 5 => 10
  | _ => 0

lemma INTERVALS_get?_eq (nb : Nat) (h1 : 1 ≤ nb) (h6 : nb < 6) :
    INTERVALS.get? (nb - 1) = some (specInterval nb) := by
  interval_cases nb <;> rfl

lemma reviewTransition_fst_pos (success : Bool) (box attempts : Nat)
    (h : 1 ≤ box) (h254 : box ≤ 254) :
    1 ≤ (reviewTransition success box attempts).1 := by
  unfold reviewTransition
  split_ifs <;> simp <;> omega

lemma storeLookup_storeSet_self (s : List (Nat × Card)) (rid : Nat) (c0 c : Card)
    (h : storeLookup s rid = some c0) :
    storeLookup (storeSet s rid c) rid = some c := by
  induction s with
  | nil => simp [storeLookup] at h
  | cons p rest ih =>
    by_cases hp : p.1 = rid
    · simp [storeLookup, storeSet, List.find?_cons, hp]
    · simp only [storeLookup, storeSet, List.map_cons, List.find?_cons] at h ⊢
      rw [if_neg hp] at *
      simp only [decide_eq_true_eq, hp, decide_False] at h ⊢
      exact ih h

lemma getD_set_self {α : Type} (l : List α) (n : Nat) (a d : α) (h : n < l.length) :
    (l.set n a).getD n d = a := by
  simp [List.getD_eq_getElem?_getD, List.getElem?_set_eq_of_lt, h]

lemma nextFrom_ge (today : Int) (due : List Int) (lastIdx i : Nat) :
    i ≤ nextFrom today due lastIdx i := by
  induction i using nextFrom.induct today due lastIdx with
  | case1 x hx hdue => rw [nextFrom, if_pos hx, if_pos hdue]
  | case2 x hx hdue ih => rw [nextFrom, if_pos hx, if_neg hdue]; omega
  | case3 x hx => rw [nextFrom, if_neg hx]

lemma nextFrom_le (today : Int) (due : List Int) (lastIdx i : Nat) (h : i ≤ lastIdx) :
    nextFrom today due lastIdx i ≤ lastIdx := by
  induction i using nextFrom.induct today due lastIdx with
  | case1 x hx hdue => rw [nextFrom, if_pos hx, if_pos hdue]; omega
  | case2 x hx hdue ih => rw [nextFrom, if_pos hx, if_neg hdue]; exact ih (by omega)
  | case3 x hx => rw [nextFrom, if_neg hx]; omega

lemma nextFrom_not_due_before (today : Int) (due : List Int) (lastIdx i : Nat) :
    ∀ j, i ≤ j → j < nextFrom today due lastIdx i → today < due.getD j 0 := by
  induction i using nextFrom.induct today due lastIdx with
  | case1 x hx hdue =>
    intro j h1 h2
    rw [nextFrom, if_pos hx, if_pos hdue] at h2
    omega
  | case2 x hx hdue ih =>
    intro j h1 h2
    rw [nextFrom, if_pos hx, if_neg hdue] at h2
    rcases Nat.eq_or_lt_of_le h1 with rfl | hlt
    · omega
    · exact ih j (by omega) h2
  | case3 x hx =>
    intro j h1 h2
    rw [nextFrom, if_neg hx] at h2
    omega

lemma nextFrom_stops (today : Int) (due : List Int) (lastIdx i : Nat) (h : i ≤ lastIdx) :
    due.getD (nextFrom today due lastIdx i) 0 ≤ today ∨ nextFrom today due lastIdx i = lastIdx := by
  induction i using nextFrom.induct today due lastIdx with
  | case1 x hx hdue => rw [nextFrom, if_pos hx, if_pos hdue]; exact Or.inl hdue
  | case2 x hx hdue ih => rw [nextFrom, if_pos hx, if_neg hdue]; exact ih (by omega)
  | case3 x hx => rw [nextFrom, if_neg hx]; omega

/-- C1 (counterexample): the claim's "otherwise the box is unchanged and
attempts becomes attempts+1" fails at the reachable `u8` boundary: failing
the box-1 card whose stored `attempts` is 255 persists `attempts = 0`
(release-build wrap of `attempts + 1`; a debug build panics there), never
256 as the claim's unbounded reading demands. -/
theorem c1_counterexample :
    (review noFault false 0 L1att255).2 = Outcome.ok ∧
    storeLookup (review noFault false 0 L1att255).1.store 1 =
      some (⟨"w", "d", 1, 1, 0⟩ : Card) ∧
    (storeLookup (review noFault false 0 L1att255).1.store 1).map Card.attempts ≠
      some 256 := by decide

/-- C1 (amended): for a `review(success)` call on a card at an in-range
cursor whose stored `next_review` is on-or-before today (its box in `[1,5]`
and its attempts a `u8` value, as persisted), the box/attempts transition is
promotion on success, demotion only on a second consecutive failure above
box 1, and otherwise the box is kept while attempts becomes
`(attempts + 1) % 256` — the `u8` wrap, so the 256th consecutive failure at
box 1 resets the counter to 0 instead of storing 256; and whenever the new
box is below 6 the persisted row and the cached `review_due`/`box_level`
entries at the cursor all carry `today + interval(new_box)` with
`interval = {1:1, 2:2, 3:4, 4:6, 5:10}` and the new box and attempts. -/
theorem c1_review_state_machine (success : Bool) (today : Int) (L : Leitner) (c : Card)
    (hidx : L.selected_index < L.word_index.length)
    (hdue : L.review_due.length = L.word_index.length)
    (hbox : L.box_level.length = L.word_index.length)
    (hc : storeLookup L.store (L.selected_index + 1) = some c)
    (hdate : c.next_review ≤ today)
    (hb1 : 1 ≤ c.box) (hb5 : c.box ≤ 5) (hatt : c.attempts ≤ 255) :
    (success = true → reviewTransition success c.box c.attempts = (c.box + 1, 0)) ∧
    (success = false → 2 ≤ (c.attempts + 1) % 256 → 1 < c.box →
      reviewTransition success c.box c.attempts = (c.box - 1, 0)) ∧
    (success = false → ¬(2 ≤ (c.attempts + 1) % 256 ∧ 1 < c.box) →
      reviewTransition success c.box c.attempts = (c.box, (c.attempts + 1) % 256)) ∧
    ((reviewTransition success c.box c.attempts).1 < 6 →
      (review noFault success today L).2 = Outcome.ok ∧
      storeLookup (review noFault success today L).1.store (L.selected_index + 1) =
        some { c with box := (reviewTransition success c.box c.attempts).1,
                      next_review := today + (specInterval (reviewTransition success c.box c.attempts).1 : Int),
                      attempts := (reviewTransition success c.box c.attempts).2 } ∧
      (review noFault success today L).1.review_due.getD L.selected_index 0 =
        today + (specInterval (reviewTransition success c.box c.attempts).1 : Int) ∧
      (review noFault success today L).1.box_level.getD L.selected_index 0 =
        (reviewTransition success c.box c.attempts).1) := by
  refine ⟨?_, ?_, ?_, ?_⟩
  · intro hs
    simp only [reviewTransition, hs, if_true, Prod.mk.injEq]
    exact ⟨Nat.mod_eq_of_lt (by omega), trivial⟩
  · intro hs h2 hb; simp [reviewTransition, hs, h2, hb]
  · intro hs hn
    simp only [reviewTransition, hs, if_false, Bool.false_eq_true]
    rw [if_neg (by omega : ¬((c.attempts + 1) % 256 ≥ 2 ∧ c.box > 1))]
  · intro h6
    have hnb1 : 1 ≤ (reviewTransition success c.box c.attempts).1 :=
      reviewTransition_fst_pos success c.box c.attempts hb1 (by omega)
    have hrev : review noFault success today L =
        ({ L with
            store := storeSet L.store (L.selected_index + 1)
              { c with box := (reviewTransition success c.box c.attempts).1,
                       next_review := today + (specInterval (reviewTransition success c.box c.attempts).1 : Int),
                       attempts := (reviewTransition success c.box c.attempts).2 },
            review_due := L.review_due.set L.selected_index
              (today + (specInterval (reviewTransition success c.box c.attempts).1 : Int)),
            box_level := L.box_level.set L.selected_index
              (reviewTransition success c.box c.attempts).1 }, Outcome.ok) := by
      rw [review]
      rw [if_pos hidx]
      simp only [noFault, Bool.false_eq_true, if_false, hc]
      rw [if_neg (not_lt.mpr hdate)]
      rw [if_neg (by omega : ¬ (reviewTransition success c.box c.attempts).1 = 6)]
      rw [if_neg (by omega : ¬ (reviewTransition success c.box c.attempts).1 = 0)]
      rw [INTERVALS_get?_eq _ hnb1 h6]
      simp only []
      rw [if_pos (by simpa [hdue] using hidx)]
      rw [if_pos (by simpa [hbox, List.length_set] using hidx)]
    rw [hrev]
    refine ⟨rfl, ?_, ?_, ?_⟩
    · exact storeLookup_storeSet_self _ _ c _ hc
    · exact getD_set_self _ _ _ _ (by omega)
    · exact getD_set_self _ _ _ _ (by omega)

/-- Witness for C1: a successful review of the box-2 card due on day 0
promotes it to box 3 and schedules it for day `0 + 4`. -/
theorem c1_witness :
    (review noFault true 0 L1box2).2 = Outcome.ok ∧
    (review noFault true 0 L1box2).1.review_due.getD 0 0 = 4 := by
  have h := (c1_review_state_machine true 0 L1box2 ⟨"w", "d", 2, 0, 0⟩
      (by decide) (by decide) (by decide) (by decide) (by decide) (by decide)
      (by decide) (by decide)).2.2.2 (by decide)
  refine ⟨h.1, ?_⟩
  have h2 := h.2.2.1
  norm_num [reviewTransition, specInterval] at h2
  exact h2

/-- C2: `review(success)` on a card whose stored `next_review` is strictly
after today returns success and changes nothing: the store, the three
in-memory sequences and the cursor are all left exactly as they were. -/
theorem c2_due_gate (w : Bool) (success : Bool) (today : Int) (L : Leitner) (c : Card)
    (hidx : L.selected_index < L.word_index.length)
    (hc : storeLookup L.store (L.selected_index + 1) = some c)
    (hfuture : today < c.next_review) :
    review ⟨false, w⟩ success today L = (L, Outcome.ok) := by
  rw [review, if_pos hidx]
  simp only [Bool.false_eq_true, if_false, hc]
  rw [if_pos hfuture]

/-- Witness for C2: reviewing the card due on day 7 on day 0 is a no-op. -/
theorem c2_witness : review ⟨false, true⟩ true 0 L1future = (L1future, Outcome.ok) :=
  c2_due_gate true true 0 L1future ⟨"w", "d", 1, 7, 0⟩ (by decide) (by decide) (by decide)

/-- C3 (failing input): in a loaded two-card state, graduating the card at
position 0 deletes ROWID 1 and shifts positions, after which position 0
describes the card persisted under ROWID 2 while identity 0 + 1 = 1 has no
row — the position-to-identity correspondence the claim asserts is broken,
though the three sequences do keep equal lengths. -/
theorem c3_alignment_broken_by_graduation :
    (review noFault true 0 L2cards).2 = Outcome.ok ∧
    (review noFault true 0 L2cards).1.word_index.length = 1 ∧
    (review noFault true 0 L2cards).1.review_due.length = 1 ∧
    (review noFault true 0 L2cards).1.box_level.length = 1 ∧
    (review noFault true 0 L2cards).1.word_index.getD 0 "" = "beta" ∧
    storeLookup (review noFault true 0 L2cards).1.store 1 = none ∧
    storeLookup (review noFault true 0 L2cards).1.store 2 = some cardB := by decide

/-- C4 (failing input): graduating the only card empties the collection and
then runs `selected_index = word_index.len() - 1` with `len = 0`: the cursor
is not left at 0 but wraps to `2^64 - 1` (release profile; debug builds
panic on the underflow). -/
theorem c4_cursor_underflow_on_empty :
    (review noFault true 0 L1card).2 = Outcome.ok ∧
    (review noFault true 0 L1card).1.word_index = [] ∧
    (review noFault true 0 L1card).1.store = [] ∧
    (review noFault true 0 L1card).1.selected_index = 2 ^ 64 - 1 := by decide

/-- C5 (failing input): on an empty collection `update_index_by` calls
`clamp(0, -1)`, whose `min ≤ max` assertion fails in every build profile, so
the call panics (modelled as `none`) instead of being a no-op. -/
theorem c5_move_by_panics_on_empty :
    update_index_by L0 1 = none ∧ update_index_by L0 (-1) = none ∧
    update_index_by L0 0 = none := by decide

/-- C6: `next` is a no-op on an empty collection; otherwise (from an
in-range cursor, with the sequences aligned) it only moves the cursor, never
decreases it, never passes the last position, skips exactly the not-yet-due
positions before the one it stops at, and stops either on a due position or
on the last position. -/
theorem c6_advance_to_due (today : Int) (L : Leitner) :
    (L.word_index.length = 0 → next today L = L) ∧
    (L.review_due.length = L.word_index.length →
      L.selected_index < L.word_index.length →
      (next today L).store = L.store ∧
      (next today L).word_index = L.word_index ∧
      (next today L).review_due = L.review_due ∧
      (next today L).box_level = L.box_level ∧
      L.selected_index ≤ (next today L).selected_index ∧
      (next today L).selected_index ≤ L.word_index.length - 1 ∧
      (∀ j, L.selected_index ≤ j → j < (next today L).selected_index →
        today < L.review_due.getD j 0) ∧
      (L.review_due.getD ((next today L).selected_index) 0 ≤ today ∨
        (next today L).selected_index = L.word_index.length - 1)) := by
  constructor
  · intro h
    rw [next, if_pos (List.isEmpty_iff_length_eq_zero.mpr h)]
  · intro hdue hidx
    have hne : ¬ (L.word_index.isEmpty = true) := fun hE =>
      absurd (List.isEmpty_iff_length_eq_zero.mp hE) (by omega)
    have hnext : next today L =
        { L with selected_index :=
            nextFrom today L.review_due (L.word_index.length - 1) L.selected_index } := by
      rw [next, if_neg hne]
    rw [hnext]
    exact ⟨rfl, rfl, rfl, rfl, nextFrom_ge _ _ _ _,
      nextFrom_le _ _ _ _ (by omega),
      nextFrom_not_due_before _ _ _ _,
      nextFrom_stops _ _ _ _ (by omega)⟩

/-- Witness for C6: on the two-card state with position 0 due on day 0,
`next` keeps the sequences and stops within bounds. -/
theorem c6_witness :
    (next 0 L2cards).word_index = L2cards.word_index ∧
    (next 0 L2cards).selected_index ≤ 2 - 1 := by
  have h := (c6_advance_to_due 0 L2cards).2 (by decide) (by decide)
  exact ⟨h.2.1, h.2.2.2.2.2.1⟩

/-- C7 (counterexample): with the cursor out of range, `review` does not
return success: on the empty collection it returns `Err(InvalidQuery)`. -/
theorem c7_counterexample : (review noFault true 0 L0).2 ≠ Outcome.ok := by decide

/-- C7 (amended): `review(success)` with the cursor out of range is a no-op
that returns the distinct error `InvalidQuery` (not success), with no state
change. -/
theorem c7_out_of_range_returns_error (f : Faults) (success : Bool) (today : Int)
    (L : Leitner) (h : L.word_index.length ≤ L.selected_index) :
    review f success today L = (L, Outcome.err DbErr.invalidQuery) := by
  rw [review, if_neg (not_lt.mpr h)]

/-- Witness for C7 (amended): the empty collection with cursor 0. -/
theorem c7_witness : review noFault false 3 L0 = (L0, Outcome.err DbErr.invalidQuery) :=
  c7_out_of_range_returns_error noFault false 3 L0 (by decide)

/-- C8 (failing input): construction propagates open/initialisation failures
as returned errors, but a malformed persisted date (`"garbage"`) panics the
process through the `.unwrap()` on the parse instead of returning an error. -/
theorem c8_construction_failure_modes :
    new true false [] = NewResult.err DbErr.openFail ∧
    new false true [] = NewResult.err DbErr.execFail ∧
    new false false [(1, (⟨"w", "d", 1, "garbage", 0⟩ : RawCard))] = NewResult.panicked := by
  decide

/-- C9: for both `add` and `review`, whenever a persistence operation fails
(any injected fault) the error is surfaced and the returned state — the
store mirror threading every mutation in source order — is exactly the
original, because each store write precedes the in-memory update. -/
theorem c9_write_then_mirror (f : Faults) (success : Bool) (today : Int)
    (w d : String) (L : Leitner) (e : DbErr) :
    ((add f today w d L).2 = Outcome.err e → (add f today w d L).1 = L) ∧
    ((review f success today L).2 = Outcome.err e → (review f success today L).1 = L) := by
  constructor
  · unfold add
    split
    · intro _; rfl
    · intro h; exact absurd h (by simp)
  · unfold review
    dsimp only []
    repeat' split
    all_goals intro h
    all_goals first
      | rfl
      | exact absurd h (by simp)

/-- Witness for C9: a failing INSERT surfaces the error and leaves the empty
state untouched. -/
theorem c9_witness : (add ⟨false, true⟩ 0 "" "" L0).1 = L0 :=
  (c9_write_then_mirror ⟨false, true⟩ true 0 "" "" L0 DbErr.execFail).1 (by decide)

/-- C10: `add` validates nothing: for every `word` and `definition`
(including empty strings) it inserts a row with box 1, `next_review` =
`today + 1` and attempts 0, appends the matching triple to the three
sequences, and returns success when the INSERT succeeds. -/
theorem c10_add_no_validation (today : Int) (w d : String) (L : Leitner) :
    add noFault today w d L =
      ({ L with
          store := L.store ++ [(nextRowid L.store, (⟨w, d, 1, today + 1, 0⟩ : Card))],
          word_index := L.word_index ++ [w],
          review_due := L.review_due ++ [today + 1],
          box_level := L.box_level ++ [1] }, Outcome.ok) := rfl
